import Mathlib

/-!
Shallow embedding of `bin/agents-analyze.js` (agents-config repository).

Files and paths are modelled as `String`s (relative paths, `/`-separated,
as produced by `path.relative`).  JavaScript `&&`-chains of conditions
become `∧`/`Bool` conditions, JS string truthiness (`""` is falsy) is
modelled explicitly, and the `fs` layer is modelled by explicit inputs
(a file-system tree for the scanner, a manifest-outcome sum for the
manifest inspector).
-/

namespace AgentsAnalyze

/-! ### JS / Node string primitives -/

/-- `pat.isPrefixOf s` over char lists (model of checking a leading match). -/
def listLeads : List Char → List Char → Bool
  | _, [] => true
  | [], _ :: _ => false
  | c :: cs, p :: ps => c = p && listLeads cs ps

/-- Model of JS `s.includes(pat)` (substring containment). -/
def listContainsSub (pat : List Char) : List Char → Bool
  | [] => pat.isEmpty
  | c :: rest => listLeads (c :: rest) pat || listContainsSub pat rest

/-- Model of JS `s.includes(pat)`. -/
def strIncludes (s pat : String) : Bool :=
  listContainsSub pat.toList s.toList

/-- Model of JS `s.startsWith(pat)`. -/
def strStarts (s pat : String) : Bool :=
  listLeads s.toList pat.toList

/-- Split a char list at a separator char (model of JS `s.split(sep)` for a
one-char separator); `acc` holds the current segment reversed. -/
def splitCharAux (sep : Char) : List Char → List Char → List (List Char)
  | [], acc => [acc.reverse]
  | c :: rest, acc =>
    if c = sep then acc.reverse :: splitCharAux sep rest []
    else splitCharAux sep rest (c :: acc)

/-- Model of JS `s.split(sep)` for a one-char separator. -/
def splitChar (sep : Char) (s : String) : List (List Char) :=
  splitCharAux sep s.toList []

/-- Model of Node `path.basename(p)`: the part after the last `/`. -/
def basename (p : String) : String :=
  String.mk ((splitChar '/' p).getLastD p.toList)

/-- Helper for `extname`: the suffix of a char list starting at its last dot. -/
def extSuffix : List Char → Option (List Char)
  | [] => none
  | c :: rest =>
    match extSuffix rest with
    | some e => some e
    | none => if c = '.' then some (c :: rest) else none

/-- Model of Node `path.extname(p)`: from the last `.` of the basename to the
end; a dot at position 0 of the basename does not count (`.env` has no
extension). -/
def extname (p : String) : String :=
  match (basename p).toList with
  | [] => ""
  | _ :: rest =>
    match extSuffix rest with
    | some e => String.mk e
    | none => ""

/-- Model of `path.basename(file, path.extname(file))`: the basename with its
extension (always a suffix) removed. -/
def basenameNoExt (p : String) : String :=
  let b := (basename p).toList
  String.mk (b.take (b.length - (extname p).toList.length))

/-- Model of `s.split(sep)[0]` for a one-char separator. -/
def firstSeg (sep : Char) (s : String) : String :=
  String.mk ((splitChar sep s).headD s.toList)

/-- Model of JS `s.toLowerCase()` (structural, so that it evaluates in the
kernel). -/
def strLower (s : String) : String :=
  String.mk (s.toList.map Char.toLower)

/-- JS truthiness of an optional string: present and nonempty. -/
def jsTruthy (o : Option String) : Bool :=
  match o with
  | some s => s ≠ ""
  | none => false

/-- JS `x || d` for an optional string: the string when truthy, else `d`. -/
def jsOr (o : Option String) (d : String) : String :=
  match o with
  | some s => if s = "" then d else s
  | none => d

/-- The value of an optional string, `""` when absent (used only under a
`jsTruthy` guard, where it is the actual value). -/
def optStr (o : Option String) : String := o.getD ""

/-- Emit the lines only when the condition holds (a guarded `lines.push`). -/
def condLines (b : Bool) (ls : List String) : List String :=
  if b then ls else []

/-! ### File categorizer (`categorizeFiles`) -/

/-- The category buckets of `categorizeFiles`. -/
inductive Category where
  | components | pages | api | hooks | utils | tests | styles | config | other
deriving DecidableEq, Repr

/-- Extension test of the `/\.(tsx?|jsx?)$/` regex applied to `path.extname`
output (which contains exactly one dot, at position 0). -/
def scriptExt (e : String) : Bool :=
  e = ".ts" || e = ".tsx" || e = ".js" || e = ".jsx"

/-- Extension test of the `/\.(css|scss|less|sass)$/` regex applied to
`path.extname` output. -/
def styleExt (e : String) : Bool :=
  e = ".css" || e = ".scss" || e = ".less" || e = ".sass"

/-- The cascading conditional of `categorizeFiles` for one relative path:
first match wins, in source order. -/
def categorize (rel : String) : Category :=
  let ext := extname rel
  let base := basename rel
  if strIncludes rel "components/" || strIncludes rel "Components/" then .components
  else if strIncludes rel "pages/" || (strIncludes rel "app/" && scriptExt ext) then .pages
  else if strIncludes rel "api/" || strIncludes rel "server/" || strIncludes rel "functions/" then .api
  else if strIncludes rel "hooks/" || strStarts base "use" then .hooks
  else if strIncludes rel "utils/" || strIncludes rel "lib/" || strIncludes rel "helpers/" then .utils
  else if strIncludes base ".test." || strIncludes base ".spec." || strIncludes rel "__tests__" then .tests
  else if styleExt ext then .styles
  else if strIncludes base "config" || base = "tsconfig.json" || strStarts base ".env" then .config
  else .other

/-- The nine buckets returned by `categorizeFiles`. -/
structure Categories where
  components : List String
  pages : List String
  api : List String
  hooks : List String
  utils : List String
  tests : List String
  styles : List String
  config : List String
  other : List String
deriving DecidableEq, Repr

/-- `categorizeFiles`: every file is pushed, in input order, onto the bucket
its first matching rule selects. -/
def categorizeFiles (files : List String) : Categories where
  components := files.filter (fun f => categorize f = Category.components)
  pages := files.filter (fun f => categorize f = Category.pages)
  api := files.filter (fun f => categorize f = Category.api)
  hooks := files.filter (fun f => categorize f = Category.hooks)
  utils := files.filter (fun f => categorize f = Category.utils)
  tests := files.filter (fun f => categorize f = Category.tests)
  styles := files.filter (fun f => categorize f = Category.styles)
  config := files.filter (fun f => categorize f = Category.config)
  other := files.filter (fun f => categorize f = Category.other)

/-! ### Convention inferencer (`analyzeNamingConventions`) -/

/-- `^[A-Z][a-zA-Z0-9]*$` on a basename-without-extension. -/
def isPascalName (b : String) : Bool :=
  match b.toList with
  | [] => false
  | c :: rest => c.isUpper && rest.all fun ch => ch.isAlpha || ch.isDigit

/-- `^[a-z][a-zA-Z0-9]*$` on a basename-without-extension. -/
def isCamelName (b : String) : Bool :=
  match b.toList with
  | [] => false
  | c :: rest => c.isLower && rest.all fun ch => ch.isAlpha || ch.isDigit

/-- `^[a-z][a-z0-9-]*$` on a basename-without-extension. -/
def isKebabName (b : String) : Bool :=
  match b.toList with
  | [] => false
  | c :: rest => c.isLower && rest.all fun ch => ch.isLower || ch.isDigit || ch = '-'

/-- Files whose basename matches the PascalCase shape (first branch of the
`if`/`else if` classification). -/
def pascalCount (files : List String) : Nat :=
  files.countP fun f => isPascalName (basenameNoExt f)

/-- Files counted as camelCase: the second `else if` branch, reached only when
the PascalCase branch did not fire. -/
def camelCount (files : List String) : Nat :=
  files.countP fun f => !isPascalName (basenameNoExt f) && isCamelName (basenameNoExt f)

/-- Files counted as kebab-case: the third `else if` branch. -/
def kebabCount (files : List String) : Nat :=
  files.countP fun f =>
    !isPascalName (basenameNoExt f) && !isCamelName (basenameNoExt f)
      && isKebabName (basenameNoExt f)

/-- Files with extension `.tsx`. -/
def tsxCount (files : List String) : Nat :=
  files.countP fun f => extname f = ".tsx"

/-- Files with extension `.jsx` (the `else if` branch after `.tsx`). -/
def jsxCount (files : List String) : Nat :=
  files.countP fun f => !(extname f = ".tsx") && extname f = ".jsx"

/-- Files whose full path contains `.test.`. -/
def testCount (files : List String) : Nat :=
  files.countP fun f => strIncludes f ".test."

/-- Files whose full path contains `.spec.` but not `.test.` (the `else if`
branch after the `.test.` check). -/
def specCount (files : List String) : Nat :=
  files.countP fun f => !strIncludes f ".test." && strIncludes f ".spec."

/-- Files whose basename-without-extension is `index`. -/
def indexCount (files : List String) : Nat :=
  files.countP fun f => basenameNoExt f = "index"

/-- The conventions record produced by `analyzeNamingConventions`. -/
structure Conventions where
  componentStyle : Option String
  fileExtension : Option String
  testNaming : Option String
  indexFiles : Bool
  barrelExports : Bool
deriving DecidableEq, Repr

/-- `analyzeNamingConventions`: tally the shape classes and decide each
convention exactly as the source's final block does. -/
def analyzeNamingConventions (files : List String) : Conventions where
  componentStyle :=
    if pascalCount files > camelCount files ∧ pascalCount files > kebabCount files then
      some "PascalCase"
    else if camelCount files > pascalCount files ∧ camelCount files > kebabCount files then
      some "camelCase"
    else if kebabCount files > 0 then
      some "kebab-case"
    else
      none
  fileExtension := some (if tsxCount files > jsxCount files then ".tsx" else ".jsx")
  testNaming := some (if testCount files ≥ specCount files then ".test." else ".spec.")
  indexFiles := indexCount files > 5
  barrelExports := indexCount files > 10

/-! ### Manifest inspector (`analyzePackageJson`) -/

/-- The parsed shape of `package.json` that the inspector reads. -/
structure PkgJson where
  name : Option String
  version : Option String
  pkgType : Option String
  dependencies : List (String × String)
  devDependencies : List (String × String)
  scripts : List (String × String)
deriving DecidableEq, Repr

/-- Association-list lookup (model of JS object key access). -/
def lookupA (l : List (String × String)) (k : String) : Option String :=
  (l.find? fun p => p.1 = k).map fun p => p.2

/-- `{ ...pkg.dependencies, ...pkg.devDependencies }`: dev entries override. -/
def mergeDeps (d dd : List (String × String)) : String → Option String := fun k =>
  match lookupA dd k with
  | some v => some v
  | none => lookupA d k

/-- JS truthiness of `deps[k]`: the key is present with a nonempty version. -/
def hasDep (deps : String → Option String) (k : String) : Bool :=
  match deps k with
  | some v => v ≠ ""
  | none => false

/-- The version string of a dependency (used only under a `hasDep` guard). -/
def depVal (deps : String → Option String) (k : String) : String :=
  (deps k).getD ""

/-- The `analysis` record built by `analyzePackageJson`. -/
structure PkgAnalysis where
  name : Option String
  version : Option String
  pkgType : Option String
  framework : Option String
  styling : Option String
  database : Option String
  testing : Option String
  linting : Option String
  buildTool : Option String
  deployment : Option String
  features : List String
  scripts : List (String × String)
  keyDependencies : List String
deriving DecidableEq, Repr

/-- The initial `analysis` object of `analyzePackageJson`: every field null,
every list empty (returned unchanged when the manifest is missing or
unparseable). -/
def defaultPkgAnalysis : PkgAnalysis where
  name := none
  version := none
  pkgType := none
  framework := none
  styling := none
  database := none
  testing := none
  linting := none
  buildTool := none
  deployment := none
  features := []
  scripts := []
  keyDependencies := []

/-- Framework detection: the `if`/`else if` chain over the merged deps. -/
def detectFramework (deps : String → Option String) : Option String :=
  if hasDep deps "next" then some "Next.js"
  else if hasDep deps "remix" || hasDep deps "@remix-run/react" then some "Remix"
  else if hasDep deps "astro" then some "Astro"
  else if hasDep deps "nuxt" then some "Nuxt"
  else if hasDep deps "svelte" || hasDep deps "@sveltejs/kit" then some "SvelteKit"
  else if hasDep deps "gatsby" then some "Gatsby"
  else if hasDep deps "react" then
    some (if hasDep deps "vite" then "React (Vite)" else "React")
  else if hasDep deps "vue" then some "Vue"
  else none

/-- Styling detection chain. -/
def detectStyling (deps : String → Option String) : Option String :=
  if hasDep deps "tailwindcss" then some "Tailwind CSS"
  else if hasDep deps "@mui/material" then some "Material-UI"
  else if hasDep deps "styled-components" then some "Styled Components"
  else if hasDep deps "@emotion/react" then some "Emotion"
  else if hasDep deps "sass" || hasDep deps "node-sass" then some "Sass/SCSS"
  else none

/-- Database detection chain. -/
def detectDatabase (deps : String → Option String) : Option String :=
  if hasDep deps "@supabase/supabase-js" then some "Supabase"
  else if hasDep deps "firebase" then some "Firebase"
  else if hasDep deps "@prisma/client" then some "Prisma"
  else if hasDep deps "drizzle-orm" then some "Drizzle"
  else if hasDep deps "mongoose" then some "MongoDB (Mongoose)"
  else none

/-- Testing detection chain. -/
def detectTesting (deps : String → Option String) : Option String :=
  if hasDep deps "vitest" then some "Vitest"
  else if hasDep deps "jest" then some "Jest"
  else if hasDep deps "@playwright/test" then some "Playwright"
  else if hasDep deps "cypress" then some "Cypress"
  else none

/-- Linting detection (ESLint optionally extended with Prettier). -/
def detectLinting (deps : String → Option String) : Option String :=
  if hasDep deps "eslint" then
    some (if hasDep deps "prettier" then "ESLint + Prettier" else "ESLint")
  else if hasDep deps "biome" || hasDep deps "@biomejs/biome" then some "Biome"
  else none

/-- Build tool detection chain. -/
def detectBuildTool (deps : String → Option String) : Option String :=
  if hasDep deps "turbo" || hasDep deps "@turbo/gen" then some "Turborepo"
  else if hasDep deps "nx" then some "Nx"
  else if hasDep deps "vite" then some "Vite"
  else if hasDep deps "webpack" then some "Webpack"
  else none

/-- A one-element list when the condition holds (a conditional `push`). -/
def condSing (b : Bool) (s : String) : List String :=
  if b then [s] else []

/-- The `features` pushes of `analyzePackageJson`, in source push order
(`Monorepo` is pushed by the Turborepo branch and by the Nx branch of the
build-tool chain, hence the disjunction). -/
def detectFeatures (deps : String → Option String) : List String :=
  condSing (hasDep deps "react" &&
      (strIncludes (depVal deps "react") "19" || strIncludes (depVal deps "react") "canary"))
    "React 19"
  ++ condSing (hasDep deps "turbo" || hasDep deps "@turbo/gen" || hasDep deps "nx") "Monorepo"
  ++ condSing (hasDep deps "@google/generative-ai") "Google Gemini AI"
  ++ condSing (hasDep deps "openai") "OpenAI API"
  ++ condSing (hasDep deps "@anthropic-ai/sdk") "Anthropic Claude"
  ++ condSing (hasDep deps "storybook" || hasDep deps "@storybook/react") "Storybook"
  ++ condSing (hasDep deps "three" || hasDep deps "@react-three/fiber") "Three.js/R3F"
  ++ condSing (hasDep deps "framer-motion") "Framer Motion"
  ++ condSing (hasDep deps "react-query" || hasDep deps "@tanstack/react-query") "TanStack Query"
  ++ condSing (hasDep deps "zustand") "Zustand"
  ++ condSing (hasDep deps "jotai") "Jotai"
  ++ condSing (hasDep deps "redux" || hasDep deps "@reduxjs/toolkit") "Redux"
  ++ condSing (hasDep deps "zod") "Zod validation"
  ++ condSing (hasDep deps "react-hook-form") "React Hook Form"
  ++ condSing (hasDep deps "typescript") "TypeScript"

/-- The `keyDependencies` pushes, in source push order (the Material-UI push
sits in the `else if` after Tailwind; Supabase heads its own chain). -/
def detectKeyDeps (deps : String → Option String) : List String :=
  condSing (hasDep deps "next") ("next@" ++ depVal deps "next")
  ++ condSing (hasDep deps "react") ("react@" ++ depVal deps "react")
  ++ condSing (hasDep deps "tailwindcss") ("tailwindcss@" ++ depVal deps "tailwindcss")
  ++ condSing (!hasDep deps "tailwindcss" && hasDep deps "@mui/material")
    ("@mui/material@" ++ depVal deps "@mui/material")
  ++ condSing (hasDep deps "@supabase/supabase-js")
    ("@supabase/supabase-js@" ++ depVal deps "@supabase/supabase-js")
  ++ condSing (hasDep deps "typescript") ("typescript@" ++ depVal deps "typescript")

/-- The three outcomes of reading `package.json`: the file is absent
(`fs.existsSync` false), present but unparseable (`JSON.parse` throws,
caught), or parsed. -/
inductive ManifestFile where
  | missing
  | malformed
  | parsed (pkg : PkgJson)

/-- `analyzePackageJson`: a missing or malformed manifest returns the default
record unchanged; a parsed one fills the fields through the detection
chains. -/
def analyzePackageJson : ManifestFile → PkgAnalysis
  | .missing => defaultPkgAnalysis
  | .malformed => defaultPkgAnalysis
  | .parsed pkg =>
    let deps := mergeDeps pkg.dependencies pkg.devDependencies
    { name := pkg.name
      version := pkg.version
      pkgType := some (jsOr pkg.pkgType "commonjs")
      framework := detectFramework deps
      styling := detectStyling deps
      database := detectDatabase deps
      testing := detectTesting deps
      linting := detectLinting deps
      buildTool := detectBuildTool deps
      deployment := none
      features := detectFeatures deps
      scripts := pkg.scripts
      keyDependencies := detectKeyDeps deps }

/-! ### Verifier framework-consistency check (`verifyConfiguration`) -/

/-- The framework-mismatch test of `verifyConfiguration`:
`configFramework` is `projectConfig.project.framework`; the detected label is
lowercased and truncated at its first space, and a warning is pushed exactly
when both values are (JS-)truthy and the truncated detected label does not
contain the persisted value verbatim. -/
def verifyFrameworkWarning (configFramework detectedLabel : Option String) : Bool :=
  match configFramework, detectedLabel with
  | some c, some d =>
    let dl := firstSeg ' ' (strLower d)
    if c ≠ "" ∧ dl ≠ "" then !strIncludes dl c else false
  | _, _ => false

/-! ### Tree walker (`scanDirectory`) -/

/-- A file-system tree: a directory carries a readability flag
(`fs.readdirSync` succeeds iff it is `true`). -/
inductive FSTree where
  | file (name : String)
  | dir (name : String) (readable : Bool) (entries : List FSTree)

/-- The `results` accumulator of `scanDirectory`. -/
structure ScanResult where
  files : List String
  dirs : List String
  totalFiles : Nat
  totalDirs : Nat
deriving DecidableEq, Repr

/-- The freshly initialized (and also the error-path) `results` object. -/
def emptyScan : ScanResult := ⟨[], [], 0, 0⟩

/-- Merge of two partial `results` (the loop's accumulation, per entry). -/
def mergeScan (r s : ScanResult) : ScanResult :=
  ⟨r.files ++ s.files, r.dirs ++ s.dirs, r.totalFiles + s.totalFiles,
    r.totalDirs + s.totalDirs⟩

/-- `IGNORE_DIRS` of the source. -/
def IGNORE_DIRS : List String :=
  ["node_modules", ".git", ".next", ".nuxt", "dist", "build", "out", ".cache",
    "coverage", ".turbo", ".vercel"]

/-- `path.join(dir, entry.name)` (modelled as plain concatenation). -/
def joinPath (dir name : String) : String := dir ++ "/" ++ name

mutual

/-- `scanDirectory(dir, maxDepth, currentDepth)` on a directory whose read
succeeds iff `readable`: depth guard, then the entry loop; an unreadable
directory yields the still-empty `results` (the `catch` path). -/
def scanDirectory (dirPath : String) (readable : Bool) (entries : List FSTree)
    (maxDepth currentDepth : Nat) : ScanResult :=
  if currentDepth ≥ maxDepth then emptyScan
  else if readable then scanEntries dirPath entries maxDepth currentDepth
  else emptyScan
termination_by (sizeOf entries, 1)

/-- The `for (const entry of entries)` loop. -/
def scanEntries (dirPath : String) (es : List FSTree) (maxDepth currentDepth : Nat) :
    ScanResult :=
  match es with
  | [] => emptyScan
  | e :: rest =>
    mergeScan (scanEntry dirPath e maxDepth currentDepth)
      (scanEntries dirPath rest maxDepth currentDepth)
termination_by (sizeOf es, 0)

/-- One loop iteration: a file is recorded; a directory is skipped when
ignored or dot-named, otherwise recorded and recursed into at depth + 1. -/
def scanEntry (dirPath : String) (e : FSTree) (maxDepth currentDepth : Nat) :
    ScanResult :=
  match e with
  | .file name => ⟨[joinPath dirPath name], [], 1, 0⟩
  | .dir name readable es =>
    if IGNORE_DIRS.contains name || strStarts name "." then emptyScan
    else
      let sub := scanDirectory (joinPath dirPath name) readable es maxDepth (currentDepth + 1)
      ⟨sub.files, joinPath dirPath name :: sub.dirs, sub.totalFiles, 1 + sub.totalDirs⟩
termination_by (sizeOf e, 2)

end

/-! ### The full analysis profile -/

/-- Result of `analyzeTypeScriptConfig` (when `tsconfig.json` exists). -/
structure TsConfig where
  strict : Bool
  baseUrl : Option String
  paths : List (String × List String)
  target : Option String
  jsx : Option String
deriving DecidableEq, Repr

/-- Result of `analyzeReadme` (when `README.md` exists and is readable). -/
structure Readme where
  title : Option String
  description : Option String
  length : Nat
deriving DecidableEq, Repr

/-- Result of `detectKeyFiles`. -/
structure KeyFiles where
  readme : Bool
  contributing : Bool
  license : Bool
  changelog : Bool
  envExample : Bool
  docker : Bool
  cicd : Bool
  husky : Bool
  editorconfig : Bool
  nvmrc : Bool
deriving DecidableEq, Repr

/-- The keys of the `AGENTS` table. -/
inductive AgentKey where
  | copilot | claude | cursor | gemini | codex | windsurf
deriving DecidableEq, Repr

/-- `AGENTS[key].name`. -/
def agentName : AgentKey → String
  | .copilot => "GitHub Copilot"
  | .claude => "Claude (Anthropic)"
  | .cursor => "Cursor"
  | .gemini => "Gemini (Google)"
  | .codex => "Codex (OpenAI)"
  | .windsurf => "Windsurf/Codeium"

/-- One entry of `detectAgentConfigs` (the successful-read shape: path and
byte size; entries whose read failed are not modelled, no claim touches
them). -/
structure AgentConfigEntry where
  key : AgentKey
  path : String
  size : Nat
deriving DecidableEq, Repr

/-- The slice of `.agents-project.json` the program reads. -/
structure ProjectCfg where
  version : Option String
  agents : List AgentKey
  framework : Option String
deriving DecidableEq, Repr

/-- The totals of `scanDirectory` used by the report. -/
structure FileStructure where
  totalFiles : Nat
  totalDirs : Nat
deriving DecidableEq, Repr

/-- The `analysis` record assembled in `main` and consumed by the renderers
and the verifier.  `categories` and `conventions` are always present at the
call sites (the source's `if (analysis.categories)` / `if
(analysis.conventions)` guards are always taken), so they are plain
fields. -/
structure Analysis where
  fileStructure : FileStructure
  categories : Categories
  conventions : Conventions
  packageJson : PkgAnalysis
  tsconfig : Option TsConfig
  projectConfig : Option ProjectCfg
  agentConfigs : List AgentConfigEntry
  readme : Option Readme
  keyFiles : KeyFiles
deriving DecidableEq, Repr

/-- `analysis.readme?.description`. -/
def readmeDesc (r : Option Readme) : Option String :=
  r.bind fun x => x.description

/-- `analysis.tsconfig?.strict` as a truthiness test. -/
def tsStrict : Option TsConfig → Bool
  | none => false
  | some t => t.strict

/-- `analysis.tsconfig?.paths && Object.keys(paths).length > 0`. -/
def tsPathsNonempty : Option TsConfig → Bool
  | none => false
  | some t => !t.paths.isEmpty

/-! ### Full report renderer (`generateAnalysisReport`) -/

/-- Decimal model of `(size / 1024).toFixed(1)` (kilobytes rounded to one
decimal place). -/
def sizeKB1 (size : Nat) : String :=
  let t := (size * 10 + 512) / 1024
  toString (t / 10) ++ "." ++ toString (t % 10)

/-- The report's first four lines; the date stamp is
`new Date().toISOString().split('T')[0]`, i.e. the part of the render
instant `now` (an ISO-8601 string) before its `T`. -/
def reportHeaderLines (now : String) : List String :=
  ["# Project Analysis Report", "",
    "> Generated by `npx agents-analyze` on " ++ firstSeg 'T' now, ""]

/-- The `## Project Overview` section. -/
def overviewLines (a : Analysis) : List String :=
  ["## Project Overview", ""]
  ++ condLines (jsTruthy a.packageJson.name) ["**Name:** " ++ optStr a.packageJson.name]
  ++ condLines (jsTruthy (readmeDesc a.readme)) ["**Description:** " ++ optStr (readmeDesc a.readme)]
  ++ condLines (jsTruthy a.packageJson.framework) ["**Framework:** " ++ optStr a.packageJson.framework]
  ++ condLines (jsTruthy a.packageJson.styling) ["**Styling:** " ++ optStr a.packageJson.styling]
  ++ condLines (jsTruthy a.packageJson.database) ["**Database:** " ++ optStr a.packageJson.database]
  ++ [""]

/-- The `## Tech Stack` section. -/
def techStackLines (p : PkgAnalysis) : List String :=
  ["## Tech Stack", ""]
  ++ condLines (!p.keyDependencies.isEmpty)
    ("### Key Dependencies" :: p.keyDependencies.map (fun d => "- " ++ d) ++ [""])
  ++ condLines (!p.features.isEmpty)
    ("### Features" :: p.features.map (fun f => "- " ++ f) ++ [""])

/-- One table row of the file-distribution table (emitted when nonempty). -/
def catRow (label : String) (files : List String) : List String :=
  condLines (!files.isEmpty) ["| " ++ label ++ " | " ++ toString files.length ++ " |"]

/-- The file-distribution table rows, in the buckets' insertion order. -/
def categoryRows (c : Categories) : List String :=
  catRow "components" c.components ++ catRow "pages" c.pages ++ catRow "api" c.api
  ++ catRow "hooks" c.hooks ++ catRow "utils" c.utils ++ catRow "tests" c.tests
  ++ catRow "styles" c.styles ++ catRow "config" c.config ++ catRow "other" c.other

/-- The `## Project Structure` section (the `if (analysis.categories)` guard
is always taken). -/
def structureLines (a : Analysis) : List String :=
  ["## Project Structure", "",
    "- **Total Files:** " ++ toString a.fileStructure.totalFiles,
    "- **Total Directories:** " ++ toString a.fileStructure.totalDirs, ""]
  ++ ("### File Distribution" :: "" :: "| Category | Count |" :: "|----------|-------|"
      :: categoryRows a.categories ++ [""])

/-- The `## Coding Conventions` section. -/
def conventionsSection (c : Conventions) : List String :=
  ["## Coding Conventions", ""]
  ++ condLines (jsTruthy c.componentStyle) ["- **Component Naming:** " ++ optStr c.componentStyle]
  ++ condLines (jsTruthy c.fileExtension) ["- **File Extension:** " ++ optStr c.fileExtension]
  ++ condLines (jsTruthy c.testNaming) ["- **Test Naming:** " ++ optStr c.testNaming]
  ++ condLines c.indexFiles ["- **Index Files:** Uses index.ts/js for exports"]
  ++ condLines c.barrelExports ["- **Barrel Exports:** Uses barrel pattern extensively"]
  ++ [""]

/-- One path-alias bullet (`paths[0]` of an empty alias list renders as JS
`undefined`). -/
def tsPathLine (p : String × List String) : String :=
  "  - `" ++ p.1 ++ "` → `" ++ p.2.headD "undefined" ++ "`"

/-- The `## TypeScript Configuration` section, emitted only when a tsconfig
was found. -/
def tsconfigSection : Option TsConfig → List String
  | none => []
  | some t =>
    ["## TypeScript Configuration", "",
      "- **Strict Mode:** " ++ if t.strict then "Yes" else "No"]
    ++ condLines (jsTruthy t.baseUrl) ["- **Base URL:** " ++ optStr t.baseUrl]
    ++ condLines (!t.paths.isEmpty) ("- **Path Aliases:**" :: t.paths.map tsPathLine)
    ++ [""]

/-- One `## Project Setup` checklist line. -/
def keyFileLine (b : Bool) (label : String) : String :=
  "- " ++ (if b then "✅" else "❌") ++ " " ++ label

/-- The `## Project Setup` section, labels in `keyFileLabels` order. -/
def setupLines (k : KeyFiles) : List String :=
  ["## Project Setup", "",
    keyFileLine k.readme "README.md",
    keyFileLine k.contributing "CONTRIBUTING.md",
    keyFileLine k.license "LICENSE",
    keyFileLine k.changelog "CHANGELOG.md",
    keyFileLine k.envExample "Environment example",
    keyFileLine k.docker "Docker support",
    keyFileLine k.cicd "GitHub Actions CI/CD",
    keyFileLine k.husky "Git hooks (Husky)",
    keyFileLine k.editorconfig "EditorConfig",
    keyFileLine k.nvmrc ".nvmrc (Node version)",
    ""]

/-- The block emitted for one agent configuration. -/
def agentConfigLines (e : AgentConfigEntry) : List String :=
  ["### " ++ agentName e.key,
    "- **File:** `" ++ e.path ++ "`",
    "- **Size:** " ++ sizeKB1 e.size ++ " KB",
    ""]

/-- The `## Agent Configurations` section (only when any config exists). -/
def agentSection (cfgs : List AgentConfigEntry) : List String :=
  condLines (!cfgs.isEmpty)
    ("## Agent Configurations" :: "" :: (cfgs.map agentConfigLines).flatten)

/-- The conditional `recommendations` pushes, in source order. -/
def recommendations (a : Analysis) : List String :=
  condLines (jsTruthy a.packageJson.framework)
    ["- Framework-specific patterns for " ++ optStr a.packageJson.framework]
  ++ condLines (jsTruthy a.packageJson.styling)
    ["- " ++ optStr a.packageJson.styling ++ " component patterns and class naming"]
  ++ condLines (tsPathsNonempty a.tsconfig)
    ["- Import alias patterns (e.g., `@/components/...`)"]
  ++ condLines (jsTruthy a.conventions.componentStyle)
    ["- " ++ optStr a.conventions.componentStyle ++ " naming convention for components"]
  ++ condLines (!a.categories.api.isEmpty)
    ["- API route patterns and data fetching conventions"]
  ++ condLines (jsTruthy a.packageJson.testing)
    ["- Testing patterns using " ++ optStr a.packageJson.testing]

/-- The `## Recommendations` section. -/
def recommendationLines (a : Analysis) : List String :=
  ["## Recommendations", "",
    "Based on this analysis, consider updating your agent configurations with:", ""]
  ++ recommendations a
  ++ condLines (recommendations a).isEmpty ["- No specific recommendations at this time."]

/-- The report's closing lines. -/
def reportFooterLines : List String :=
  ["", "---", "",
    "*Run `npx agents-analyze` again after making changes to update this report.*"]

/-- Everything of the report after the header: a pure function of the
profile alone. -/
def reportBodyLines (a : Analysis) : List String :=
  overviewLines a ++ techStackLines a.packageJson ++ structureLines a
  ++ conventionsSection a.conventions ++ tsconfigSection a.tsconfig
  ++ setupLines a.keyFiles ++ agentSection a.agentConfigs
  ++ recommendationLines a ++ reportFooterLines

/-- The `lines` array of `generateAnalysisReport`, rendered at instant
`now`. -/
def generateAnalysisReportLines (now : String) (a : Analysis) : List String :=
  reportHeaderLines now ++ reportBodyLines a

/-- `generateAnalysisReport` (`lines.join('\n')`). -/
def generateAnalysisReport (now : String) (a : Analysis) : String :=
  String.intercalate "\n" (generateAnalysisReportLines now a)

/-! ### Condensed summary renderer (`generateProjectContext`) -/

/-- The collapsed stack line: the truthy stack values joined by `' + '`,
with `TypeScript` appended when it is among the features. -/
def stackLine (p : PkgAnalysis) : String :=
  String.intercalate " + "
    (condSing (jsTruthy p.framework) (optStr p.framework)
      ++ condSing (jsTruthy p.styling) (optStr p.styling)
      ++ condSing (jsTruthy p.database) (optStr p.database)
      ++ condSing (jsTruthy p.testing) (optStr p.testing)
      ++ condSing (p.features.contains "TypeScript") "TypeScript")

/-- The `## File Organization` bullets. -/
def fileOrgLines (c : Categories) : List String :=
  condLines (!c.components.isEmpty)
    ["- **Components:** `" ++ firstSeg '/' (c.components.headD "") ++ "/` ("
      ++ toString c.components.length ++ " files)"]
  ++ condLines (!c.pages.isEmpty)
    ["- **Pages/Routes:** `" ++ firstSeg '/' (c.pages.headD "") ++ "/` ("
      ++ toString c.pages.length ++ " files)"]
  ++ condLines (!c.api.isEmpty) ["- **API Routes:** " ++ toString c.api.length ++ " files"]
  ++ condLines (!c.hooks.isEmpty) ["- **Custom Hooks:** " ++ toString c.hooks.length ++ " files"]
  ++ condLines (!c.utils.isEmpty) ["- **Utilities:** " ++ toString c.utils.length ++ " files"]

/-- The `## Coding Standards` section: the three convention bullets are
always emitted, each falling back to a fixed default when the inferred
value is not truthy. -/
def codingStandardsLines (a : Analysis) : List String :=
  ["## Coding Standards", "",
    "- **Component naming:** " ++ jsOr a.conventions.componentStyle "PascalCase",
    "- **File extension:** " ++ jsOr a.conventions.fileExtension ".tsx",
    "- **Test files:** " ++ jsOr a.conventions.testNaming ".test."]
  ++ condLines (tsStrict a.tsconfig) ["- **TypeScript:** Strict mode enabled"]
  ++ condLines (tsPathsNonempty a.tsconfig)
    ["- **Import aliases:** Use `@/` prefix for src imports"]
  ++ [""]

/-- One conditional `npm run` bullet of `## Available Scripts`. -/
def scriptLine (scripts : List (String × String)) (s : String) : List String :=
  condLines (jsTruthy (lookupA scripts s))
    ["- `npm run " ++ s ++ "` - " ++ optStr (lookupA scripts s)]

/-- The `## Available Scripts` section (`importantScripts` order). -/
def availableScriptsLines (scripts : List (String × String)) : List String :=
  condLines (!scripts.isEmpty)
    (["## Available Scripts", ""]
      ++ scriptLine scripts "dev" ++ scriptLine scripts "build"
      ++ scriptLine scripts "start" ++ scriptLine scripts "test"
      ++ scriptLine scripts "lint" ++ scriptLine scripts "format"
      ++ [""])

/-- The summary's sections before `## Coding Standards`: header, identity,
technology stack, additional libraries, file organization. -/
def ctxPreLines (a : Analysis) : List String :=
  ["# Project Context", "",
    "> **This file provides project-specific context for AI coding assistants.**",
    "> Auto-generated by `npx agents-analyze`. Edit as needed.",
    ">",
    "> This file **extends** the general guidelines in [AGENTS.md](./AGENTS.md).",
    "> Project-specific patterns here override generic rules when they conflict.",
    "",
    "## Project Identity", ""]
  ++ condLines (jsTruthy a.packageJson.name) ["- **Name:** " ++ optStr a.packageJson.name]
  ++ condLines (jsTruthy (readmeDesc a.readme)) ["- **Purpose:** " ++ optStr (readmeDesc a.readme)]
  ++ ["", "## Technology Stack", "", stackLine a.packageJson, ""]
  ++ condLines (!a.packageJson.features.isEmpty)
    ("### Additional Libraries" :: a.packageJson.features.map (fun f => "- " ++ f) ++ [""])
  ++ ["## File Organization", ""]
  ++ fileOrgLines a.categories
  ++ [""]

/-- The summary's sections after `## Coding Standards`: available scripts and
the project-specific-patterns scaffold. -/
def ctxPostLines (a : Analysis) : List String :=
  availableScriptsLines a.packageJson.scripts
  ++ ["## Project-Specific Patterns", "",
    "<!-- Add project-specific patterns, conventions, and notes below -->", "",
    "- [ ] TODO: Document component composition patterns",
    "- [ ] TODO: Document state management approach",
    "- [ ] TODO: Document API/data fetching patterns",
    "- [ ] TODO: Document error handling conventions",
    ""]

/-- The `lines` array of `generateProjectContext`, section by section. -/
def contextLines (a : Analysis) : List String :=
  ctxPreLines a ++ codingStandardsLines a ++ ctxPostLines a

/-- `generateProjectContext`, rendered at instant `now`.  The source body
never consults the clock, so the render instant is an unused input — the
condensed summary is a pure function of the profile. -/
def generateProjectContext (_now : String) (a : Analysis) : String :=
  String.intercalate "\n" (contextLines a)

/-- `lines.take 2 ++ lines.drop 3`: the report without its date-stamp line
(which sits at index 2). -/
def dropTimestamp (ls : List String) : List String :=
  ls.take 2 ++ ls.drop 3

/-! ## Helper lemmas -/

/-- A directory whose read fails contributes the empty result (the whole
entry loop sits inside the `try`). -/
theorem scanDirectory_unreadable (dirPath : String) (entries : List FSTree)
    (maxDepth currentDepth : Nat) :
    scanDirectory dirPath false entries maxDepth currentDepth = emptyScan := by
  rw [scanDirectory]
  split
  · rfl
  · simp

/-- The contribution of an unreadable directory entry does not depend on its
contents. -/
theorem scanEntry_dir_unreadable (dirPath name : String) (es : List FSTree)
    (maxDepth currentDepth : Nat) :
    scanEntry dirPath (.dir name false es) maxDepth currentDepth
      = if IGNORE_DIRS.contains name || strStarts name "." then emptyScan
        else ⟨[], [joinPath dirPath name], 0, 1⟩ := by
  rw [scanEntry]
  split
  · rfl
  · simp [scanDirectory_unreadable, emptyScan]

/-- Membership of the component-naming default bullet in the coding-standards
section when the inferred style is null. -/
theorem mem_codingStandards_component (a : Analysis)
    (h : a.conventions.componentStyle = none) :
    "- **Component naming:** PascalCase" ∈ codingStandardsLines a := by
  unfold codingStandardsLines
  rw [h]
  refine List.mem_append_left _ ?_
  simp [jsOr]

/-- Membership of the file-extension default bullet. -/
theorem mem_codingStandards_extension (a : Analysis)
    (h : a.conventions.fileExtension = none) :
    "- **File extension:** .tsx" ∈ codingStandardsLines a := by
  unfold codingStandardsLines
  rw [h]
  refine List.mem_append_left _ ?_
  simp [jsOr]

/-- Membership of the test-files default bullet. -/
theorem mem_codingStandards_test (a : Analysis)
    (h : a.conventions.testNaming = none) :
    "- **Test files:** .test." ∈ codingStandardsLines a := by
  unfold codingStandardsLines
  rw [h]
  refine List.mem_append_left _ ?_
  simp [jsOr]

/-! ## Claims -/

/-- C1 (counterexample): on the spec scenario `src/components/Button.tsx`,
`src/components/Button.test.tsx`, the tests bucket is empty and both files
land in the components bucket — the test rule does not take precedence. -/
theorem C1_counterexample :
    (categorizeFiles ["src/components/Button.tsx", "src/components/Button.test.tsx"]).tests = []
    ∧ (categorizeFiles ["src/components/Button.tsx", "src/components/Button.test.tsx"]).components
      = ["src/components/Button.tsx", "src/components/Button.test.tsx"] := by
  decide

/-- C1 (amended): any relative path containing the `components/` segment —
`Button.test.tsx` under `src/components/` included — is categorized into the
components bucket: the components-directory rule is evaluated first and wins
over the later test-filename-infix rule. -/
theorem C1_components_rule_first (rel : String)
    (h : strIncludes rel "components/" = true) :
    categorize rel = Category.components := by
  unfold categorize
  simp [h]

/-- C1 witness: the amended statement at the scenario's test file. -/
theorem C1_components_rule_first_witness :
    strIncludes "src/components/Button.test.tsx" "components/" = true
    ∧ categorize "src/components/Button.test.tsx" = Category.components :=
  ⟨by decide, C1_components_rule_first "src/components/Button.test.tsx" (by decide)⟩

/-- C2 (counterexample): one PascalCase and one camelCase basename, no
hyphenated one — a tie — and the inferred component style is `none`, not
`PascalCase`. -/
theorem C2_counterexample :
    pascalCount ["src/Button.tsx", "src/button.tsx"]
      = camelCount ["src/Button.tsx", "src/button.tsx"]
    ∧ 0 < pascalCount ["src/Button.tsx", "src/button.tsx"]
    ∧ kebabCount ["src/Button.tsx", "src/button.tsx"] = 0
    ∧ (analyzeNamingConventions ["src/Button.tsx", "src/button.tsx"]).componentStyle ≠
        some "PascalCase" := by
  decide

/-- C2 (amended): with equal (positive) PascalCase and camelCase counts and
no hyphenated basename, the inferencer reports no component style at all
(`null`): a tie is not broken toward the capitalized class — every winner
needs a strictly highest count. -/
theorem C2_tie_yields_null (files : List String)
    (h1 : pascalCount files = camelCount files)
    (_h2 : 0 < pascalCount files)
    (h3 : kebabCount files = 0) :
    (analyzeNamingConventions files).componentStyle = none := by
  simp [analyzeNamingConventions, h1, h3]

/-- C2 witness: the amended statement at the tied two-file list. -/
theorem C2_tie_yields_null_witness :
    (analyzeNamingConventions ["src/Button.tsx", "src/button.tsx"]).componentStyle = none :=
  C2_tie_yields_null ["src/Button.tsx", "src/button.tsx"] (by decide) (by decide) (by decide)

/-- C3: whenever the merged dependency map has a truthy `next` entry (in
particular when `react` is also present), the framework field is the
Next.js value and never the generic React value; the `else if` chain never
reconsiders the field once the higher-priority rule matched. -/
theorem C3_next_framework_priority (pkg : PkgJson)
    (hnext : hasDep (mergeDeps pkg.dependencies pkg.devDependencies) "next" = true)
    (_hreact : hasDep (mergeDeps pkg.dependencies pkg.devDependencies) "react" = true) :
    (analyzePackageJson (.parsed pkg)).framework = some "Next.js"
    ∧ (analyzePackageJson (.parsed pkg)).framework ≠ some "React" := by
  have hfw : (analyzePackageJson (.parsed pkg)).framework
      = detectFramework (mergeDeps pkg.dependencies pkg.devDependencies) := rfl
  rw [hfw, detectFramework, if_pos hnext]
  exact ⟨rfl, by simp⟩

/-- C3 witness: a manifest with both `next` and `react` dependencies. -/
theorem C3_next_framework_priority_witness :
    (analyzePackageJson (ManifestFile.parsed
      ⟨some "app", some "1.0.0", none, [("next", "14.0.0"), ("react", "18.2.0")], [], []⟩)).framework
      = some "Next.js" :=
  (C3_next_framework_priority
    ⟨some "app", some "1.0.0", none, [("next", "14.0.0"), ("react", "18.2.0")], [], []⟩
    (by decide) (by decide)).1

/-- C4: rendering the full report at two instants yields identical lines
once the date-stamp line (index 2) is excluded, and rendering the condensed
summary at two instants yields byte-identical text: both renderers are
deterministic pure functions of the profile. -/
theorem C4_renderers_deterministic (a : Analysis) (n₁ n₂ : String) :
    dropTimestamp (generateAnalysisReportLines n₁ a)
      = dropTimestamp (generateAnalysisReportLines n₂ a)
    ∧ (generateAnalysisReportLines n₁ a)[2]?
      = some ("> Generated by `npx agents-analyze` on " ++ firstSeg 'T' n₁)
    ∧ generateProjectContext n₁ a = generateProjectContext n₂ a :=
  ⟨rfl, rfl, rfl⟩

/-- C5: the manifest inspector is total by construction, a missing manifest
returns the untouched default record, a malformed one likewise, and that
record has every stack field null and every list empty. -/
theorem C5_manifest_degrades_to_default :
    analyzePackageJson ManifestFile.missing = defaultPkgAnalysis
    ∧ analyzePackageJson ManifestFile.malformed = defaultPkgAnalysis
    ∧ defaultPkgAnalysis.name = none
    ∧ defaultPkgAnalysis.framework = none
    ∧ defaultPkgAnalysis.styling = none
    ∧ defaultPkgAnalysis.database = none
    ∧ defaultPkgAnalysis.testing = none
    ∧ defaultPkgAnalysis.linting = none
    ∧ defaultPkgAnalysis.buildTool = none
    ∧ defaultPkgAnalysis.deployment = none
    ∧ defaultPkgAnalysis.features = []
    ∧ defaultPkgAnalysis.keyDependencies = [] := by
  decide

/-- C6 (counterexample): a persisted `Next` against a detected `Next.js`
warns, although each lowercased string contains the other — the check is
not case-insensitive on the persisted side. -/
theorem C6_counterexample :
    verifyFrameworkWarning (some "Next") (some "Next.js") = true
    ∧ strIncludes (strLower "Next.js") (strLower "Next") = true := by
  decide

/-- C6 (amended): the consistency check lowercases only the detected label,
truncates it at its first space, and demands verbatim (case-sensitive)
containment of the persisted value in that word — one direction only; a
warning is produced exactly when both strings are nonempty and that
containment fails. -/
theorem C6_warning_characterization (c d : String) :
    verifyFrameworkWarning (some c) (some d) = true ↔
      (c ≠ "" ∧ firstSeg ' ' (strLower d) ≠ ""
        ∧ strIncludes (firstSeg ' ' (strLower d)) c = false) := by
  unfold verifyFrameworkWarning
  by_cases h1 : c = "" <;> by_cases h2 : firstSeg ' ' (strLower d) = "" <;>
    simp [h1, h2]

/-- C7 (counterexample): with one `.tsx` and one `.jsx` file — tied tallies —
the inferred extension is `.jsx`, not the claimed `.tsx` default. -/
theorem C7_counterexample :
    tsxCount ["A.tsx", "B.jsx"] = jsxCount ["A.tsx", "B.jsx"]
    ∧ (analyzeNamingConventions ["A.tsx", "B.jsx"]).fileExtension = some ".jsx" := by
  decide

/-- C7 (amended): the two competing extensions are tallied and the higher
count wins, but an equal count defaults to the second extension `.jsx` —
`.tsx` is chosen only on a strictly higher tally. -/
theorem C7_extension_tally (files : List String) :
    ((analyzeNamingConventions files).fileExtension = some ".tsx"
      ↔ jsxCount files < tsxCount files)
    ∧ ((analyzeNamingConventions files).fileExtension = some ".jsx"
      ↔ tsxCount files ≤ jsxCount files) := by
  have hfe : (analyzeNamingConventions files).fileExtension
      = some (if tsxCount files > jsxCount files then ".tsx" else ".jsx") := rfl
  rw [hfe]
  by_cases h : jsxCount files < tsxCount files <;>
    simp [h, Nat.not_lt.mp, Nat.le_of_not_lt]

/-- C8: the test-naming preference selects `.test.` whenever the `.test.`
tally is at least the `.spec.` tally, and `.spec.` exactly when the
`.spec.` tally is strictly greater (the asymmetric greater-or-equal
tie-break). -/
theorem C8_test_naming_tally (files : List String) :
    ((analyzeNamingConventions files).testNaming = some ".test."
      ↔ specCount files ≤ testCount files)
    ∧ ((analyzeNamingConventions files).testNaming = some ".spec."
      ↔ testCount files < specCount files) := by
  have htn : (analyzeNamingConventions files).testNaming
      = some (if testCount files ≥ specCount files then ".test." else ".spec.") := rfl
  rw [htn]
  by_cases h : specCount files ≤ testCount files <;>
    simp [h, Nat.lt_of_not_le, Nat.not_lt.mpr]

/-- C9: the tree walker is total on every tree and depth limit — an
unreadable directory contributes the empty partial result (the run does not
abort), and the scan of any entry list is unchanged when the contents of an
unreadable subdirectory are replaced arbitrarily: the rest of the tree is
still scanned identically. -/
theorem C9_unreadable_subtree_skipped :
    (∀ (dirPath : String) (entries : List FSTree) (maxDepth currentDepth : Nat),
      scanDirectory dirPath false entries maxDepth currentDepth = emptyScan)
    ∧ (∀ (dirPath name : String) (l₁ l₂ : List FSTree) (es es' : List FSTree)
        (maxDepth currentDepth : Nat),
      scanEntries dirPath (l₁ ++ FSTree.dir name false es :: l₂) maxDepth currentDepth
        = scanEntries dirPath (l₁ ++ FSTree.dir name false es' :: l₂) maxDepth currentDepth) := by
  refine ⟨scanDirectory_unreadable, ?_⟩
  intro dirPath name l₁ l₂ es es' maxDepth currentDepth
  induction l₁ with
  | nil =>
    rw [List.nil_append, List.nil_append, scanEntries, scanEntries,
      scanEntry_dir_unreadable, scanEntry_dir_unreadable]
  | cons e rest ih =>
    rw [List.cons_append, List.cons_append, scanEntries, scanEntries, ih]

/-- C10: when an inferred convention field is null, the condensed summary
still emits the corresponding coding-standard bullet, substituting the fixed
defaults `PascalCase`, `.tsx` and `.test.`. -/
theorem C10_coding_standard_defaults (a : Analysis) :
    (a.conventions.componentStyle = none →
      "- **Component naming:** PascalCase" ∈ contextLines a)
    ∧ (a.conventions.fileExtension = none →
      "- **File extension:** .tsx" ∈ contextLines a)
    ∧ (a.conventions.testNaming = none →
      "- **Test files:** .test." ∈ contextLines a) := by
  refine ⟨fun h => ?_, fun h => ?_, fun h => ?_⟩ <;>
    rw [contextLines] <;>
    refine List.mem_append_left _ (List.mem_append_right _ ?_)
  · exact mem_codingStandards_component a h
  · exact mem_codingStandards_extension a h
  · exact mem_codingStandards_test a h

/-- C10 witness: the three default bullets at a concrete profile whose
convention fields are all null. -/
theorem C10_coding_standard_defaults_witness :
    "- **Component naming:** PascalCase"
        ∈ contextLines ⟨⟨0, 0⟩, ⟨[], [], [], [], [], [], [], [], []⟩,
          ⟨none, none, none, false, false⟩, defaultPkgAnalysis, none, none, [], none,
          ⟨false, false, false, false, false, false, false, false, false, false⟩⟩
    ∧ "- **File extension:** .tsx"
        ∈ contextLines ⟨⟨0, 0⟩, ⟨[], [], [], [], [], [], [], [], []⟩,
          ⟨none, none, none, false, false⟩, defaultPkgAnalysis, none, none, [], none,
          ⟨false, false, false, false, false, false, false, false, false, false⟩⟩
    ∧ "- **Test files:** .test."
        ∈ contextLines ⟨⟨0, 0⟩, ⟨[], [], [], [], [], [], [], [], []⟩,
          ⟨none, none, none, false, false⟩, defaultPkgAnalysis, none, none, [], none,
          ⟨false, false, false, false, false, false, false, false, false, false⟩⟩ :=
  ⟨(C10_coding_standard_defaults _).1 rfl,
    (C10_coding_standard_defaults _).2.1 rfl,
    (C10_coding_standard_defaults _).2.2 rfl⟩

end AgentsAnalyze
